import Mathlib

/-!
Verification of the grid module (`orbkit/grid.py`).

The module keeps a process-wide grid state (coordinate arrays `x`, `y`, `z`,
per-axis bounds `min_`/`max_`, counts `N_`, spacings `delta_`, cell volume
`d3r`, and an `is_initialized` flag) and a handful of operations on it:
`grid_init`, `grid2vector`, `vector2grid`, `random_grid`, `read` and
`center_grid`.

Modelling conventions:
* Python floats are modelled as rationals (`ℚ`); the arithmetic appearing in
  the module is exact on the inputs the claims quantify over.
* Python `float` division by zero raises `ZeroDivisionError`; the embedding
  makes that control flow explicit (`Err.zeroDivisionError`).  Division of
  numpy arrays never raises; the only such division (`d_tilde / delta_` in
  `center_grid`) feeds values whose downstream use is irrelevant to any
  theorem below when a divisor is zero.
* The three-element Python lists / numpy vectors indexed by axis are modelled
  by the fixed-shape record `Triple`.
* Fallible code returns `Except Err`.  On a Python exception the interpreter
  leaves partially mutated globals behind; the embedding discards the state on
  error (no claim below observes a post-exception state).
-/

namespace Orbkit

/-- Python exceptions that the module can actually raise. -/
inductive Err : Type where
  /-- `IOError('Inconsistency in Grid File ...')` raised by `check` in `read`
  (the spec's `FormatError`). -/
  | ioError : Err
  /-- `ValueError`, e.g. from `numpy.array(..., dtype=float64)` on tokens that
  do not parse as floats or on ragged rows, or `min()` of an empty sequence. -/
  | valueError : Err
  /-- `IndexError` from indexing an empty selection, e.g.
  `numpy.nonzero(...)[0][0]` in `center_grid` or `grid[:,0]` in `read`. -/
  | indexError : Err
  /-- Python `ZeroDivisionError` from float division by zero in `grid_init`. -/
  | zeroDivisionError : Err
deriving DecidableEq, Repr

/-- A fixed three-component vector: models the per-axis lists/arrays of
length 3 (`min_`, `max_`, `N_`, `delta_`, and the local `grid` lists). -/
structure Triple (α : Type) : Type where
  c0 : α
  c1 : α
  c2 : α
deriving DecidableEq, Repr

/-- Component access by axis number (`t[i]` for `i` in `range(3)`). -/
def Triple.get {α : Type} (t : Triple α) : Fin 3 → α
  | ⟨0, _⟩ => t.c0
  | ⟨1, _⟩ => t.c1
  | ⟨_ + 2, _⟩ => t.c2

/-- Component update by axis number (`t[i] = v`). -/
def Triple.set {α : Type} (t : Triple α) : Fin 3 → α → Triple α
  | ⟨0, _⟩, v => { t with c0 := v }
  | ⟨1, _⟩, v => { t with c1 := v }
  | ⟨_ + 2, _⟩, v => { t with c2 := v }

/-- Pythonic list index into a 3-element list, reduced modulo 3.  Python
validates `-3 ≤ i < 3` and wraps negatives; every index reachable in this
module (`enumerate` positions `0..2` and `'xyz'.find` results `-1..2`) is in
that range, where `emod 3` agrees exactly with Python's wrapping. -/
def pyIdx3 (i : ℤ) : Fin 3 :=
  ⟨(i % 3).toNat, by omega⟩

/-- The process-wide grid state (module globals of `orbkit.grid`). -/
structure GridState : Type where
  /-- Global `x`: x-coordinates. -/
  x : List ℚ
  /-- Global `y`: y-coordinates. -/
  y : List ℚ
  /-- Global `z`: z-coordinates. -/
  z : List ℚ
  /-- Global `d3r`: cell volume, product of the spacings. -/
  d3r : ℚ
  /-- Global `min_`: minimum grid values per axis. -/
  min_ : Triple ℚ
  /-- Global `max_`: maximum grid values per axis. -/
  max_ : Triple ℚ
  /-- Global `N_`: number of grid points per axis (integers). -/
  N_ : Triple ℤ
  /-- Global `delta_`: grid spacing per axis. -/
  delta_ : Triple ℚ
  /-- Global `is_initialized` flag. -/
  is_initialized : Bool
deriving DecidableEq, Repr

/-- The coordinate array of a given axis (the list `grid = [x, y, z]`). -/
def coordsOf (s : GridState) : Fin 3 → List ℚ
  | ⟨0, _⟩ => s.x
  | ⟨1, _⟩ => s.y
  | ⟨_ + 2, _⟩ => s.z

/-- `True` iff the computation succeeded (did not raise). -/
def exOk {α : Type} : Except Err α → Bool
  | .ok _ => true
  | .error _ => false

instance {ε α : Type} [DecidableEq ε] [DecidableEq α] : DecidableEq (Except ε α) :=
  fun a b =>
    match a, b with
    | .ok x, .ok y => if h : x = y then isTrue (by rw [h]) else isFalse (by simp [h])
    | .error x, .error y => if h : x = y then isTrue (by rw [h]) else isFalse (by simp [h])
    | .ok _, .error _ => isFalse (by simp)
    | .error _, .ok _ => isFalse (by simp)

/-! ### `grid_init` (lines 37-85): loop body for one axis, then the function -/

/-- One iteration of the axis loop in `grid_init`:
`if max_[ii] == min_[ii]: grid[ii] = array([min_[ii]]); delta_[ii] = 1`
`else: delta_[ii] = (max_[ii]-min_[ii]) / float(N_[ii]-1);`
`      grid[ii] = min_[ii] + arange(N_[ii]) * delta_[ii]`.
Python float division raises `ZeroDivisionError` when `N_[ii] - 1 == 0`;
`numpy.arange(n)` is empty for `n ≤ 0` (hence `toNat`). -/
def axisInit (mn mx : ℚ) (n : ℤ) : Except Err (List ℚ × ℚ) :=
  if mx = mn then
    .ok ([mn], 1)
  else if n = 1 then
    .error .zeroDivisionError
  else
    let d : ℚ := (mx - mn) / ((n : ℚ) - 1)
    .ok ((List.range n.toNat).map (fun k => mn + (k : ℚ) * d), d)

/-! ### `grid2vector` / `vector2grid` (lines 115-189) -/

/-- The triple-nested Cartesian-product loop shared by `grid2vector` and
`vector2grid`: outer loop over `x`, middle over `y`, inner over `z`, writing
`(x[i], y[j], z[k])` at the running index `count`. -/
def cartFlat (x y z : List ℚ) : List (ℚ × ℚ × ℚ) :=
  (x.map (fun xi => (y.map (fun yj => z.map (fun zk => (xi, yj, zk)))).flatten)).flatten

/-- The output buffer semantics of the inline-C loop: the buffer is
`numpy.zeros(n)`; writes happen at `count = 0, 1, 2, ...`; positions never
written stay `0`.  A write past the end of the buffer is undefined behavior in
the C code; the embedding drops such writes (no claim exercises them). -/
def padTrunc (n : ℕ) (l : List ℚ) : List ℚ :=
  l.take n ++ List.replicate (n - l.length) 0

/-- `grid2vector` (lines 115-151): allocates `zeros((3, product(N_)))`
(`ValueError` if the product is negative), runs the Cartesian-product loop
over the *current* `x`, `y`, `z`, and overwrites only `x`, `y`, `z`. -/
def grid2vector (s : GridState) : Except Err GridState :=
  let n : ℤ := s.N_.c0 * s.N_.c1 * s.N_.c2
  if n < 0 then .error .valueError
  else
    let pts := cartFlat s.x s.y s.z
    .ok { s with x := padTrunc n.toNat (pts.map (fun p => p.1)),
                 y := padTrunc n.toNat (pts.map (fun p => p.2.1)),
                 z := padTrunc n.toNat (pts.map (fun p => p.2.2)) }

/-- `vector2grid` (lines 153-189): its body is textually identical to
`grid2vector` — the same allocation, the same loop, the same writes. -/
def vector2grid (s : GridState) : Except Err GridState :=
  let n : ℤ := s.N_.c0 * s.N_.c1 * s.N_.c2
  if n < 0 then .error .valueError
  else
    let pts := cartFlat s.x s.y s.z
    .ok { s with x := padTrunc n.toNat (pts.map (fun p => p.1)),
                 y := padTrunc n.toNat (pts.map (fun p => p.2.1)),
                 z := padTrunc n.toNat (pts.map (fun p => p.2.2)) }

/-- `grid_init(is_vector)` (lines 37-85): a no-op when `is_initialized`;
otherwise runs the axis loop for the three axes, writes `x`, `y`, `z`,
`delta_` and `d3r = product(delta_)`, optionally flattens via `grid2vector`,
and finally sets `is_initialized`. -/
def grid_init (is_vector : Bool) (s : GridState) : Except Err GridState :=
  if s.is_initialized then .ok s
  else
    match axisInit s.min_.c0 s.max_.c0 s.N_.c0 with
    | .error e => .error e
    | .ok (gx, d0) =>
      match axisInit s.min_.c1 s.max_.c1 s.N_.c1 with
      | .error e => .error e
      | .ok (gy, d1) =>
        match axisInit s.min_.c2 s.max_.c2 s.N_.c2 with
        | .error e => .error e
        | .ok (gz, d2) =>
          let s1 : GridState :=
            { s with x := gx, y := gy, z := gz,
                     delta_ := ⟨d0, d1, d2⟩, d3r := d0 * d1 * d2 }
          match (if is_vector then grid2vector s1 else .ok s1) with
          | .error e => .error e
          | .ok s2 => .ok { s2 with is_initialized := true }

/-! ### `random_grid` (lines 235-269) -/

/-- `random_grid(geo_spec, N, scale)` (lines 235-269), with the random source
`numpy.random.normal(loc, scale, size)` passed explicitly as the oracle
`normal` (by contract it returns `size` draws).  The source fills
`grid[ii_d, ii_a, :] = numpy.random.normal(loc=geo_spec[ii_a, ii_d], scale=0.5, size=N)`
— note the hardcoded `scale=0.5`: the function's `scale` parameter is accepted
but never used in the call.  `reshape((3, at_num, N) → (3, N*at_num))` is
row-major, so each output array is the concatenation, center by center, of
that center's `N` draws.  Sets `is_initialized`. -/
def random_grid (normal : ℚ → ℚ → ℕ → List ℚ) (geo_spec : List (Triple ℚ))
    (N : ℕ) (scale : ℚ) (s : GridState) : GridState :=
  { s with
    x := (geo_spec.map (fun g => normal g.c0 (1 / 2) N)).flatten
    y := (geo_spec.map (fun g => normal g.c1 (1 / 2) N)).flatten
    z := (geo_spec.map (fun g => normal g.c2 (1 / 2) N)).flatten
    is_initialized := true }

/-! ### `read` (lines 271-358)

The file is modelled after tokenization: one `List String` per line, the
result of Python's `line.split()` (so a blank line is `[]`). -/

/-- A line is skipped iff `cl == [] or cl[0] == comment` (line 335). -/
def skipLine (comment : String) (cl : List String) : Bool :=
  cl.isEmpty || decide (cl.head? = some comment)

/-- The inner helper `check(i, is_vector)` (lines 316-322): 3 tokens are
consistent with vector format, 4 with regular format; anything else raises
`IOError('Inconsistency in Grid File ...')`. -/
def check (i : List String) (is_vector : Option Bool) : Except Err Bool :=
  if i.length = 3 ∧ (is_vector = none ∨ is_vector = some true) then .ok true
  else if i.length = 4 ∧ (is_vector = none ∨ is_vector = some false) then .ok false
  else .error .ioError

/-- `str.lower()` (character-wise lowering of the axis letter). -/
def pyLower (s : String) : String := ⟨s.data.map Char.toLower⟩

/-- `'xyz'.find(j)`: the index of the first occurrence of the substring `j`
in `"xyz"`, `-1` if absent. -/
def dimFind (j : String) : ℤ :=
  if j = "" ∨ j = "x" ∨ j = "xy" ∨ j = "xyz" then 0
  else if j = "y" ∨ j = "yz" then 1
  else if j = "z" then 2
  else -1

/-- The loop state of `read`: `is_vector` (`None` initially), the three
accumulator lists `grid` and the vector-format column map `index`
(`[]`-sentinel modelled as `none`). -/
structure LoopSt : Type where
  isVec : Option Bool
  grid : Triple (List String)
  index : Triple (Option ℤ)

/-- One step of `for i, j in enumerate(cl)` in the vector branch (lines
338-342): the first vector line fills `index[i] = dim.find(j)`; later lines
append `j` to `grid[index[i]]`.  All list indices reaching this code are in
Python's valid range `-3..2`, where `pyIdx3` agrees with Python indexing. -/
def vecStep (s : Triple (List String) × Triple (Option ℤ)) (ij : ℕ × String) :
    Triple (List String) × Triple (Option ℤ) :=
  match (s.2.get (pyIdx3 (ij.1 : ℤ))) with
  | none => (s.1, s.2.set (pyIdx3 (ij.1 : ℤ)) (some (dimFind ij.2)))
  | some d => (s.1.set (pyIdx3 d) (s.1.get (pyIdx3 d) ++ [ij.2]), s.2)

/-- The body of the `for l, line in enumerate(fileobject)` loop (lines
332-344) for one (already split) line. -/
def readLine (comment : String) (st : LoopSt) (cl : List String) :
    Except Err LoopSt :=
  if skipLine comment cl then .ok st
  else
    match check cl st.isVec with
    | .error e => .error e
    | .ok true =>
      let gi := cl.enum.foldl vecStep (st.grid, st.index)
      .ok ⟨some true, gi.1, gi.2⟩
    | .ok false =>
      .ok ⟨some false,
           st.grid.set (pyIdx3 (dimFind (pyLower (cl.headD "")))) cl.tail,
           st.index⟩

/-- The initial loop state: `is_vector = None`, `grid = [[],[],[]]`,
`index = [[],[],[]]`. -/
def initLoopSt : LoopSt := ⟨none, ⟨[], [], []⟩, ⟨none, none, none⟩⟩

/-- Natural-number value of a digit string. -/
def digitsVal (cs : List Char) : ℕ :=
  cs.foldl (fun a c => 10 * a + (c.toNat - 48)) 0

/-- Split a character list at every `'.'` (the semantics of splitting a
string on the decimal point: `"" ↦ [""]`, `"a.b" ↦ ["a", "b"]`, ...). -/
def splitOnDot : List Char → List (List Char)
  | [] => [[]]
  | c :: rest =>
    let r := splitOnDot rest
    if c = '.' then [] :: r
    else (c :: r.headD []) :: r.tail

/-- An unsigned Python float literal: digits with an optional fractional
part.  (The exponent forms and specials accepted by Python's `float()` are
not modelled; grid files carry plain decimals.) -/
def parseUnsigned (cs : List Char) : Option ℚ :=
  match splitOnDot cs with
  | [ip] =>
    if ip ≠ [] ∧ ip.all Char.isDigit then some (digitsVal ip)
    else none
  | [ip, fp] =>
    if (ip ≠ [] ∨ fp ≠ []) ∧ ip.all Char.isDigit ∧ fp.all Char.isDigit then
      some ((digitsVal ip : ℚ) + (digitsVal fp : ℚ) / (10 ^ fp.length : ℚ))
    else none
  | _ => none

/-- Python `float(token)` with an optional sign, as used by
`numpy.array(..., dtype=float64)` on string entries. -/
def parseFloat (str : String) : Option ℚ :=
  match str.data with
  | '-' :: rest => (parseUnsigned rest).map (fun q => -q)
  | '+' :: rest => parseUnsigned rest
  | cs => parseUnsigned cs

/-- `numpy.array(int)` truncation of a float toward zero, used for
`N_ = numpy.array(grid[:,2], dtype=int)` (line 356). -/
def truncQ (q : ℚ) : ℤ := q.num.tdiv (q.den : ℤ)

/-- Float conversion of one accumulator row: every token must parse
(`ValueError` otherwise). -/
def convRow (row : List String) : Except Err (List ℚ) :=
  row.mapM (fun t =>
    match parseFloat t with
    | some q => Except.ok q
    | none => Except.error Err.valueError)

/-- `read(filename, comment)` (lines 271-358).  Runs the line loop, then
`grid = numpy.array(grid, dtype=float64)` — all rows must parse and have
equal lengths (`ValueError` otherwise).  `if is_vector:` takes the vector
branch only for `True` (Python's `None` is falsy, so an effectively empty
file falls into the regular branch, where `grid[:,0]` on a width-0 array
raises `IndexError`).  The vector branch overwrites `x`, `y`, `z` and marks
the state initialized; the regular branch writes only `min_`, `max_`, `N_`.
Returns `is_vector`. -/
def read (file : List (List String)) (comment : String) (s : GridState) :
    Except Err (Option Bool × GridState) :=
  match file.foldlM (readLine comment) initLoopSt with
  | .error e => .error e
  | .ok stF =>
    match convRow stF.grid.c0 with
    | .error e => .error e
    | .ok r0 =>
      match convRow stF.grid.c1 with
      | .error e => .error e
      | .ok r1 =>
        match convRow stF.grid.c2 with
        | .error e => .error e
        | .ok r2 =>
          if r0.length = r1.length ∧ r1.length = r2.length then
            match stF.isVec with
            | some true =>
              .ok (some true,
                   { s with x := r0, y := r1, z := r2, is_initialized := true })
            | iv =>
              if 3 ≤ r0.length then
                .ok (iv,
                     { s with
                       min_ := ⟨r0.getD 0 0, r1.getD 0 0, r2.getD 0 0⟩,
                       max_ := ⟨r0.getD 1 0, r1.getD 1 0, r2.getD 1 0⟩,
                       N_ := ⟨truncQ (r0.getD 2 0), truncQ (r1.getD 2 0),
                              truncQ (r2.getD 2 0)⟩ })
              else .error .indexError
          else .error .valueError

/-- The effect of one non-skipped regular-format line on the accumulator
rows: `grid[dim.find(cl[0].lower())] = cl[1:]` (line 344); a skipped line
leaves the rows alone. -/
def regStep (comment : String) (g : Triple (List String)) (l : List String) :
    Triple (List String) :=
  if skipLine comment l then g
  else g.set (pyIdx3 (dimFind (pyLower (l.headD "")))) l.tail

/-- The accumulator rows produced by the line loop of `read` on a purely
regular-format file. -/
def regRows (comment : String) (file : List (List String)) :
    Triple (List String) :=
  file.foldl (regStep comment) ⟨[], [], []⟩

/-! ### `center_grid` (lines 360-400) -/

/-- `numpy.round`: round half to even (banker's rounding). -/
def npRound (q : ℚ) : ℚ :=
  let f : ℤ := ⌊q⌋
  let r : ℚ := q - f
  if r < 1 / 2 then (f : ℚ)
  else if 1 / 2 < r then (f : ℚ) + 1
  else if f % 2 = 0 then (f : ℚ) else (f : ℚ) + 1

/-- The per-axis shift of `center_grid` (lines 377-381):
`position = numpy.nonzero(ac[ii] <= grid[ii])[0][0]` — `IndexError` when no
coordinate is `≥ ac[ii]`; otherwise every coordinate gets
`c = delta[ii]/2 - |grid[ii][position] - ac[ii]|` added. -/
def shiftAxis (d a : ℚ) (g : List ℚ) : Except Err (List ℚ) :=
  match g.find? (fun v => decide (a ≤ v)) with
  | none => .error .indexError
  | some w => .ok (g.map (fun v => v + (d / 2 - |w - a|)))

/-- Python `min()` over a list (`ValueError` on an empty sequence). -/
def pyMin : List ℚ → Except Err ℚ
  | [] => .error .valueError
  | a :: r => .ok (r.foldl min a)

/-- Python `max()` over a list (`ValueError` on an empty sequence). -/
def pyMax : List ℚ → Except Err ℚ
  | [] => .error .valueError
  | a :: r => .ok (r.foldl max a)

/-- `center_grid(ac)` (lines 360-400): recomputes `delta_` so an integral
number of cells spans origin-to-anchor (`N_tilde = round(|d_tilde/delta_|)`,
then `delta_[ii] = d_tilde[ii]/N_tilde[ii]` when `N_tilde[ii] != 0`), shifts
each axis rigidly, and rewrites `x`, `y`, `z`, `d3r = product(delta_)`,
`min_`/`max_` (Python `min`/`max` of the shifted lists) and `N_` (the list
lengths).  The report written to `display` is pure formatting of the new
state and is not modelled. -/
def center_grid (ac : Triple ℚ) (s : GridState) : Except Err GridState :=
  let dt : Triple ℚ := ⟨|0 - ac.c0|, |0 - ac.c1|, |0 - ac.c2|⟩
  let nt : Triple ℚ := ⟨npRound |dt.c0 / s.delta_.c0|, npRound |dt.c1 / s.delta_.c1|,
                        npRound |dt.c2 / s.delta_.c2|⟩
  let de : Triple ℚ := ⟨if nt.c0 ≠ 0 then dt.c0 / nt.c0 else s.delta_.c0,
                        if nt.c1 ≠ 0 then dt.c1 / nt.c1 else s.delta_.c1,
                        if nt.c2 ≠ 0 then dt.c2 / nt.c2 else s.delta_.c2⟩
  match shiftAxis de.c0 ac.c0 s.x with
  | .error e => .error e
  | .ok gx =>
    match shiftAxis de.c1 ac.c1 s.y with
    | .error e => .error e
    | .ok gy =>
      match shiftAxis de.c2 ac.c2 s.z with
      | .error e => .error e
      | .ok gz =>
        match pyMin gx, pyMin gy, pyMin gz with
        | .error e, _, _ => .error e
        | .ok _, .error e, _ => .error e
        | .ok _, .ok _, .error e => .error e
        | .ok mn0, .ok mn1, .ok mn2 =>
          match pyMax gx, pyMax gy, pyMax gz with
          | .error e, _, _ => .error e
          | .ok _, .error e, _ => .error e
          | .ok _, .ok _, .error e => .error e
          | .ok mx0, .ok mx1, .ok mx2 =>
            .ok { s with
                  x := gx, y := gy, z := gz,
                  d3r := de.c0 * de.c1 * de.c2,
                  delta_ := de,
                  min_ := ⟨mn0, mn1, mn2⟩,
                  max_ := ⟨mx0, mx1, mx2⟩,
                  N_ := ⟨(gx.length : ℤ), (gy.length : ℤ), (gz.length : ℤ)⟩ }

/-! ### Concrete example states used by witnesses -/

/-- A concrete uninitialized state: axis 1 collapsed (`max = min`), axes 0
and 2 regular. -/
def exC2 : GridState :=
  ⟨[0], [0], [0], 0, ⟨0, 0, 0⟩, ⟨1, 0, 3⟩, ⟨2, 5, 4⟩, ⟨0, 0, 0⟩, false⟩

/-- A concrete uninitialized state with `N_[0] = 0 < 1` and
`max_[0] ≠ min_[0]` on every axis. -/
def exC4 : GridState :=
  ⟨[0], [0], [0], 0, ⟨0, 0, 0⟩, ⟨1, 1, 1⟩, ⟨0, 2, 2⟩, ⟨0, 0, 0⟩, false⟩

/-- A concrete uninitialized state with `N_[0] = 1` while
`max_[0] ≠ min_[0]`. -/
def exC4b : GridState :=
  ⟨[0], [0], [0], 0, ⟨0, 0, 0⟩, ⟨1, 1, 1⟩, ⟨1, 2, 2⟩, ⟨0, 0, 0⟩, false⟩

/-- A concrete regular grid whose coordinate-array lengths match `N_`. -/
def exC1 : GridState :=
  ⟨[1, 2], [3], [4, 5], 0, ⟨0, 0, 0⟩, ⟨1, 1, 1⟩, ⟨2, 1, 2⟩, ⟨0, 0, 0⟩, false⟩

/-- A concrete state whose coordinate-array lengths (3, 1, 1) do NOT match
the stored counts `N_ = (2, 2, 1)`. -/
def exC9 : GridState :=
  ⟨[1, 2, 3], [0], [0], 0, ⟨0, 0, 0⟩, ⟨1, 1, 1⟩, ⟨2, 2, 1⟩, ⟨0, 0, 0⟩, false⟩

/-- A probe sampling oracle standing in for `numpy.random.normal`: it returns
its `scale` argument as every draw, so the draws reveal which width the code
passed. -/
def normalProbe : ℚ → ℚ → ℕ → List ℚ :=
  fun _ sc n => List.replicate n sc

/-- One atomic center at the origin. -/
def exC5geo : List (Triple ℚ) := [⟨0, 0, 0⟩]

/-- A base state for the `random_grid` evaluation. -/
def exC5 : GridState :=
  ⟨[0], [0], [0], 0, ⟨-8, -8, -8⟩, ⟨8, 8, 8⟩, ⟨101, 101, 101⟩, ⟨0, 0, 0⟩, false⟩

/-- A concrete built grid for centering: one point per axis at `0`, spacing
`1`. -/
def exC10 : GridState :=
  ⟨[0], [0], [0], 1, ⟨0, 0, 0⟩, ⟨0, 0, 0⟩, ⟨1, 1, 1⟩, ⟨1, 1, 1⟩, true⟩

/-- The anchor `(0, 0, 0)` for the centering witness. -/
def exC10ac : Triple ℚ := ⟨0, 0, 0⟩

/-- The state `center_grid exC10ac exC10` produces: every axis shifted by
`1/2`, counts re-derived from the (unchanged) lengths. -/
def exC10res : GridState :=
  ⟨[1 / 2], [1 / 2], [1 / 2], 1, ⟨1 / 2, 1 / 2, 1 / 2⟩, ⟨1 / 2, 1 / 2, 1 / 2⟩,
    ⟨1, 1, 1⟩, ⟨1, 1, 1⟩, true⟩

/-- A malformed (mixed-format) grid file: a 3-token line followed by a
4-token line. -/
def exC6file : List (List String) :=
  [["#", "comment"], ["x", "y", "z"], ["5", "-5", "0", "9"]]

/-- A base state for the `read` witnesses. -/
def exC6 : GridState :=
  ⟨[0], [0], [0], 0, ⟨-8, -8, -8⟩, ⟨8, 8, 8⟩, ⟨101, 101, 101⟩, ⟨0, 0, 0⟩, false⟩

/-- A well-formed regular-format grid file (one 4-token line per axis). -/
def exC7file : List (List String) :=
  [["#", "a", "comment", "line"], ["x", "-5", "5", "11"], ["y", "-2", "2", "5"],
   ["z", "0", "0", "1"]]

/-- A base state for the regular-format `read` witness. -/
def exC7 : GridState :=
  ⟨[0], [0], [0], 0, ⟨-8, -8, -8⟩, ⟨8, 8, 8⟩, ⟨101, 101, 101⟩, ⟨0, 0, 0⟩, false⟩

/-! ## Helper lemmas -/

/-- Per-axis specification of the `grid_init` loop body on the inputs where
Python's float division does not raise. -/
theorem axisInit_spec (mn mx : ℚ) (n : ℤ) (h : mx = mn ∨ n ≠ 1) :
    ∃ g d, axisInit mn mx n = .ok (g, d) ∧
      (mx = mn → g = [mn] ∧ d = 1) ∧
      (mx ≠ mn → d = (mx - mn) / ((n : ℚ) - 1) ∧
        g = (List.range n.toNat).map (fun k => mn + (k : ℚ) * d)) := by
  by_cases hmx : mx = mn
  · exact ⟨[mn], 1, by simp [axisInit, hmx], fun _ => ⟨rfl, rfl⟩, fun hc => absurd hmx hc⟩
  · have hn : n ≠ 1 := h.resolve_left hmx
    refine ⟨_, _, ?_, fun hc => absurd hc hmx, fun _ => ⟨rfl, rfl⟩⟩
    simp [axisInit, hmx, hn]

/-- `axisInit` raises exactly on a degenerate axis with `N = 1`. -/
theorem axisInit_err_iff (mn mx : ℚ) (n : ℤ) :
    axisInit mn mx n = .error .zeroDivisionError ↔ (n = 1 ∧ mx ≠ mn) := by
  by_cases hmx : mx = mn
  · simp [axisInit, hmx]
  · by_cases hn : n = 1
    · simp [axisInit, hmx, hn]
    · simp [axisInit, hmx, hn]

/-- The only error `axisInit` can produce. -/
theorem axisInit_err_val (mn mx : ℚ) (n : ℤ) (e : Err)
    (h : axisInit mn mx n = .error e) : e = .zeroDivisionError := by
  by_cases hmx : mx = mn
  · simp [axisInit, hmx] at h
  · by_cases hn : n = 1
    · simp [axisInit, hmx, hn] at h; exact h.symm
    · simp [axisInit, hmx, hn] at h

@[simp] theorem Triple.get_zero {α : Type} (t : Triple α) : t.get 0 = t.c0 := rfl

@[simp] theorem Triple.get_one {α : Type} (t : Triple α) : t.get 1 = t.c1 := rfl

@[simp] theorem Triple.get_two {α : Type} (t : Triple α) : t.get 2 = t.c2 := rfl

/-- A flattened list of equal-length blocks has length `#blocks * L`. -/
theorem flatten_length_const {β : Type} (L : ℕ) :
    ∀ (l : List (List β)), (∀ a ∈ l, a.length = L) →
      l.flatten.length = l.length * L := by
  intro l
  induction l with
  | nil => intro _; simp
  | cons a t ih =>
    intro h
    have ha : a.length = L := h a (by simp)
    have ht := ih (fun b hb => h b (by simp [hb]))
    simp [ha, ht, Nat.succ_mul, Nat.add_comm]

/-- Indexing into a flattened list of equal-length blocks: position
`j * L + k` (with `k < L`) is position `k` of block `j`. -/
theorem flatten_getElem_const {β : Type} (L : ℕ) :
    ∀ (l : List (List β)), (∀ a ∈ l, a.length = L) →
      ∀ (j k : ℕ), k < L → ∀ (hj : j < l.length),
        l.flatten[j * L + k]? = (l[j])[k]? := by
  intro l
  induction l with
  | nil => intro _ j k _ hj; exact absurd hj (by simp)
  | cons a t ih =>
    intro h j k hk hj
    have ha : a.length = L := h a (by simp)
    cases j with
    | zero =>
      rw [List.flatten_cons, Nat.zero_mul, Nat.zero_add,
        List.getElem?_append, if_pos (by omega)]
      rfl
    | succ j' =>
      rw [List.flatten_cons,
        List.getElem?_append_right (by rw [ha, Nat.succ_mul]; omega)]
      have harith : (j' + 1) * L + k - a.length = j' * L + k := by
        rw [ha, Nat.succ_mul]; omega
      rw [harith, ih (fun b hb => h b (by simp [hb])) j' k hk (by simpa using hj)]
      simp

/-- All the middle-level blocks of `cartFlat` have length `y.length * z.length`. -/
theorem cartFlat_inner_length (x y z : List ℚ) :
    ∀ b ∈ x.map (fun xi => (y.map (fun yj => z.map (fun zk => (xi, yj, zk)))).flatten),
      b.length = y.length * z.length := by
  intro b hb
  obtain ⟨xi, -, rfl⟩ := List.mem_map.mp hb
  refine flatten_length_const z.length _ (fun c hc => ?_) |>.trans (by simp)
  obtain ⟨yj, -, rfl⟩ := List.mem_map.mp hc
  simp

/-- The Cartesian-product loop writes `x.length * y.length * z.length`
entries. -/
theorem cartFlat_length (x y z : List ℚ) :
    (cartFlat x y z).length = x.length * (y.length * z.length) := by
  rw [cartFlat, flatten_length_const (y.length * z.length) _ (cartFlat_inner_length x y z)]
  simp

/-- The entry of `cartFlat` at flattened index `i*Ny*Nz + j*Nz + k` is
`(x[i], y[j], z[k])`. -/
theorem cartFlat_getElem (x y z : List ℚ) (i j k : ℕ)
    (hi : i < x.length) (hj : j < y.length) (hk : k < z.length) :
    (cartFlat x y z)[i * (y.length * z.length) + j * z.length + k]? =
      some (x[i], y[j], z[k]) := by
  have hjk : j * z.length + k < y.length * z.length := by
    have h1 : j * z.length + k < (j + 1) * z.length := by
      rw [Nat.succ_mul]; omega
    have h2 : (j + 1) * z.length ≤ y.length * z.length :=
      Nat.mul_le_mul_right _ (by omega)
    omega
  rw [Nat.add_assoc, cartFlat,
    flatten_getElem_const (y.length * z.length) _ (cartFlat_inner_length x y z)
      i (j * z.length + k) hjk (by simpa using hi)]
  rw [List.getElem_map]
  rw [flatten_getElem_const z.length _ (fun c hc => by
      obtain ⟨yj, -, rfl⟩ := List.mem_map.mp hc; simp)
    j k hk (by simpa using hj)]
  rw [List.getElem_map]
  rw [List.getElem?_map, List.getElem?_eq_getElem hk]
  rfl

/-- The buffer always has exactly the allocated length. -/
theorem padTrunc_length (n : ℕ) (l : List ℚ) : (padTrunc n l).length = n := by
  simp only [padTrunc, List.length_append, List.length_take, List.length_replicate]
  omega

/-- When the loop writes exactly the allocated length, the buffer is the
written sequence. -/
theorem padTrunc_eq_self (n : ℕ) (l : List ℚ) (h : l.length = n) :
    padTrunc n l = l := by
  subst h
  simp [padTrunc]

/-- `grid2vector` on a state with a nonnegative `N_`-product: the explicit
result. -/
theorem grid2vector_ok (s : GridState)
    (h : ¬(s.N_.c0 * s.N_.c1 * s.N_.c2 < 0)) :
    grid2vector s = .ok { s with
      x := padTrunc (s.N_.c0 * s.N_.c1 * s.N_.c2).toNat
        ((cartFlat s.x s.y s.z).map (fun p => p.1))
      y := padTrunc (s.N_.c0 * s.N_.c1 * s.N_.c2).toNat
        ((cartFlat s.x s.y s.z).map (fun p => p.2.1))
      z := padTrunc (s.N_.c0 * s.N_.c1 * s.N_.c2).toNat
        ((cartFlat s.x s.y s.z).map (fun p => p.2.2)) } := by
  simp [grid2vector, h]

/-! ## Claims -/

/-- C3: `vector2grid` computes exactly the same function as `grid2vector`:
both run the identical Cartesian-product flatten over the current `x`, `y`,
`z` into a buffer sized by `N_`, so `vector2grid` does not recover per-axis
vectors. -/
theorem C3_vector2grid_eq_grid2vector : vector2grid = grid2vector := rfl

/-- C2: on an uninitialized state (whenever the degenerate division of the
`N_[i] = 1`, `max_[i] ≠ min_[i]` case does not arise, cf. C4), `grid_init`
builds each axis independently: a collapsed axis (`max = min`) gets the
single coordinate `[min]` and sentinel spacing `1`; otherwise
`delta = (max - min)/(N - 1)` and coordinates `min + k * delta` for
`k = 0 .. N-1`; afterwards `d3r` is the product of the three spacings. -/
theorem C2_grid_init_build (s : GridState)
    (h0 : s.is_initialized = false)
    (hs : ∀ i : Fin 3, s.max_.get i = s.min_.get i ∨ s.N_.get i ≠ 1) :
    ∃ s', grid_init false s = .ok s' ∧
      (∀ i : Fin 3,
        (s.max_.get i = s.min_.get i →
          coordsOf s' i = [s.min_.get i] ∧ s'.delta_.get i = 1) ∧
        (s.max_.get i ≠ s.min_.get i →
          s'.delta_.get i = (s.max_.get i - s.min_.get i) / ((s.N_.get i : ℚ) - 1) ∧
          coordsOf s' i = (List.range (s.N_.get i).toNat).map
            (fun k => s.min_.get i + (k : ℚ) * s'.delta_.get i))) ∧
      s'.d3r = s'.delta_.c0 * s'.delta_.c1 * s'.delta_.c2 := by
  obtain ⟨g0, d0, he0, hc0, hn0⟩ :=
    axisInit_spec s.min_.c0 s.max_.c0 s.N_.c0 (hs 0)
  obtain ⟨g1, d1, he1, hc1, hn1⟩ :=
    axisInit_spec s.min_.c1 s.max_.c1 s.N_.c1 (hs 1)
  obtain ⟨g2, d2, he2, hc2, hn2⟩ :=
    axisInit_spec s.min_.c2 s.max_.c2 s.N_.c2 (hs 2)
  refine ⟨{ s with
      x := g0
      y := g1
      z := g2
      delta_ := ⟨d0, d1, d2⟩
      d3r := d0 * d1 * d2
      is_initialized := true }, ?_, ?_, rfl⟩
  · simp [grid_init, h0, he0, he1, he2]
  · intro i
    fin_cases i
    · exact ⟨fun h => hc0 h, fun h => hn0 h⟩
    · exact ⟨fun h => hc1 h, fun h => hn1 h⟩
    · exact ⟨fun h => hc2 h, fun h => hn2 h⟩

/-- C2 witness: a concrete uninitialized state (one collapsed axis, two
regular axes) satisfying the hypotheses of `C2_grid_init_build`. -/
theorem C2_witness :
    (exC2.is_initialized = false ∧
      ∀ i : Fin 3, exC2.max_.get i = exC2.min_.get i ∨ exC2.N_.get i ≠ 1) ∧
    (∃ s', grid_init false exC2 = .ok s' ∧
      (∀ i : Fin 3,
        (exC2.max_.get i = exC2.min_.get i →
          coordsOf s' i = [exC2.min_.get i] ∧ s'.delta_.get i = 1) ∧
        (exC2.max_.get i ≠ exC2.min_.get i →
          s'.delta_.get i =
            (exC2.max_.get i - exC2.min_.get i) / ((exC2.N_.get i : ℚ) - 1) ∧
          coordsOf s' i = (List.range (exC2.N_.get i).toNat).map
            (fun k => exC2.min_.get i + (k : ℚ) * s'.delta_.get i))) ∧
      s'.d3r = s'.delta_.c0 * s'.delta_.c1 * s'.delta_.c2) :=
  ⟨⟨by decide, by decide⟩, C2_grid_init_build exC2 (by decide) (by decide)⟩

/-- C4 counterexample: the claim says `grid_init` fails with a
`ConfigurationError` whenever some `count[i] < 1`; on the concrete
uninitialized state `exC4` with `N_[0] = 0` (and `max ≠ min` everywhere) the
code raises nothing at all — `numpy.arange(0)` is empty and the call
succeeds, producing an empty x-axis. -/
theorem C4_counterexample : exOk (grid_init false exC4) = true := by decide

/-- C4 (amended): `grid_init` on an uninitialized state raises an error —
a Python `ZeroDivisionError` from `(max_-min_)/float(N_-1)`, not a
`ConfigurationError` — exactly when some axis has `count[i] == 1` while
`max_[i] != min_[i]`; in every other case, including `count[i] < 1`, it
succeeds (a non-positive count merely yields an empty coordinate axis). -/
theorem C4_amended_grid_init_error (s : GridState)
    (h0 : s.is_initialized = false) :
    grid_init false s = .error .zeroDivisionError ↔
      ∃ i : Fin 3, s.N_.get i = 1 ∧ s.max_.get i ≠ s.min_.get i := by
  constructor
  · intro h
    by_cases hc0 : s.N_.c0 = 1 ∧ s.max_.c0 ≠ s.min_.c0
    · exact ⟨0, by simpa using hc0⟩
    · by_cases hc1 : s.N_.c1 = 1 ∧ s.max_.c1 ≠ s.min_.c1
      · exact ⟨1, by simpa using hc1⟩
      · by_cases hc2 : s.N_.c2 = 1 ∧ s.max_.c2 ≠ s.min_.c2
        · exact ⟨2, by simpa using hc2⟩
        · exfalso
          obtain ⟨g0, d0, he0, -, -⟩ :=
            axisInit_spec s.min_.c0 s.max_.c0 s.N_.c0 (by tauto)
          obtain ⟨g1, d1, he1, -, -⟩ :=
            axisInit_spec s.min_.c1 s.max_.c1 s.N_.c1 (by tauto)
          obtain ⟨g2, d2, he2, -, -⟩ :=
            axisInit_spec s.min_.c2 s.max_.c2 s.N_.c2 (by tauto)
          simp [grid_init, h0, he0, he1, he2] at h
  · rintro ⟨i, hN, hmx⟩
    fin_cases i
    · have he0 := (axisInit_err_iff s.min_.c0 s.max_.c0 s.N_.c0).mpr ⟨hN, hmx⟩
      simp [grid_init, h0, he0]
    · cases hA0 : axisInit s.min_.c0 s.max_.c0 s.N_.c0 with
      | error e0 =>
        have := axisInit_err_val _ _ _ _ hA0
        subst this
        simp [grid_init, h0, hA0]
      | ok p0 =>
        have he1 := (axisInit_err_iff s.min_.c1 s.max_.c1 s.N_.c1).mpr ⟨hN, hmx⟩
        simp [grid_init, h0, hA0, he1]
    · cases hA0 : axisInit s.min_.c0 s.max_.c0 s.N_.c0 with
      | error e0 =>
        have := axisInit_err_val _ _ _ _ hA0
        subst this
        simp [grid_init, h0, hA0]
      | ok p0 =>
        cases hA1 : axisInit s.min_.c1 s.max_.c1 s.N_.c1 with
        | error e1 =>
          have := axisInit_err_val _ _ _ _ hA1
          subst this
          simp [grid_init, h0, hA0, hA1]
        | ok p1 =>
          have he2 := (axisInit_err_iff s.min_.c2 s.max_.c2 s.N_.c2).mpr ⟨hN, hmx⟩
          simp [grid_init, h0, hA0, hA1, he2]

/-- C4 witness: on the concrete state `exC4b` (`N_[0] = 1`, `max ≠ min`) the
amended equivalence applies and the error side is realized. -/
theorem C4_witness :
    exC4b.is_initialized = false ∧
    (grid_init false exC4b = .error .zeroDivisionError ↔
      ∃ i : Fin 3, exC4b.N_.get i = 1 ∧ exC4b.max_.get i ≠ exC4b.min_.get i) :=
  ⟨rfl, C4_amended_grid_init_error exC4b rfl⟩

/-- C1: on a regular grid whose per-axis arrays match the stored counts
(`len(x) = N_[0]` etc.), `grid2vector` produces three arrays of length
`Nx*Ny*Nz` and the point at flattened index `i*Ny*Nz + j*Nz + k` is
`(x[i], y[j], z[k])` — x varies slowest, z fastest. -/
theorem C1_grid2vector_flatten (s : GridState)
    (hx : s.N_.c0 = (s.x.length : ℤ)) (hy : s.N_.c1 = (s.y.length : ℤ))
    (hz : s.N_.c2 = (s.z.length : ℤ))
    (i j k : ℕ)
    (hi : i < s.x.length) (hj : j < s.y.length) (hk : k < s.z.length) :
    ∃ s', grid2vector s = .ok s' ∧
      s'.x.length = s.x.length * (s.y.length * s.z.length) ∧
      s'.y.length = s.x.length * (s.y.length * s.z.length) ∧
      s'.z.length = s.x.length * (s.y.length * s.z.length) ∧
      s'.x[i * (s.y.length * s.z.length) + j * s.z.length + k]? = some s.x[i] ∧
      s'.y[i * (s.y.length * s.z.length) + j * s.z.length + k]? = some s.y[j] ∧
      s'.z[i * (s.y.length * s.z.length) + j * s.z.length + k]? = some s.z[k] := by
  have hn : s.N_.c0 * s.N_.c1 * s.N_.c2 =
      ((s.x.length * (s.y.length * s.z.length) : ℕ) : ℤ) := by
    rw [hx, hy, hz]; push_cast; ring
  have hnn : ¬(s.N_.c0 * s.N_.c1 * s.N_.c2 < 0) := by
    rw [hn]; exact not_lt.mpr (Int.natCast_nonneg _)
  have htn : (s.N_.c0 * s.N_.c1 * s.N_.c2).toNat =
      s.x.length * (s.y.length * s.z.length) := by
    rw [hn]; exact Int.toNat_natCast _
  have hflen : (cartFlat s.x s.y s.z).length =
      s.x.length * (s.y.length * s.z.length) := cartFlat_length s.x s.y s.z
  have hmap : ∀ f : ℚ × ℚ × ℚ → ℚ,
      padTrunc (s.N_.c0 * s.N_.c1 * s.N_.c2).toNat
          ((cartFlat s.x s.y s.z).map f) =
        (cartFlat s.x s.y s.z).map f := by
    intro f
    exact padTrunc_eq_self _ _ (by rw [List.length_map, hflen, htn])
  have hpt := cartFlat_getElem s.x s.y s.z i j k hi hj hk
  refine ⟨_, grid2vector_ok s hnn, ?_, ?_, ?_, ?_, ?_, ?_⟩ <;>
    simp only [hmap, List.length_map, hflen, List.getElem?_map, hpt,
      Option.map_some']

/-- C1 witness: the concrete grid `exC1` (`N_ = (2,1,2)`, matching array
lengths) at `i = 1`, `j = 0`, `k = 1`. -/
theorem C1_witness :
    (exC1.N_.c0 = (exC1.x.length : ℤ) ∧ exC1.N_.c1 = (exC1.y.length : ℤ) ∧
     exC1.N_.c2 = (exC1.z.length : ℤ) ∧
     1 < exC1.x.length ∧ 0 < exC1.y.length ∧ 1 < exC1.z.length) ∧
    (∃ s', grid2vector exC1 = .ok s' ∧
      s'.x.length = exC1.x.length * (exC1.y.length * exC1.z.length) ∧
      s'.y.length = exC1.x.length * (exC1.y.length * exC1.z.length) ∧
      s'.z.length = exC1.x.length * (exC1.y.length * exC1.z.length) ∧
      s'.x[1 * (exC1.y.length * exC1.z.length) + 0 * exC1.z.length + 1]? =
        some exC1.x[1] ∧
      s'.y[1 * (exC1.y.length * exC1.z.length) + 0 * exC1.z.length + 1]? =
        some exC1.y[0] ∧
      s'.z[1 * (exC1.y.length * exC1.z.length) + 0 * exC1.z.length + 1]? =
        some exC1.z[1]) :=
  ⟨⟨by decide, by decide, by decide, by decide, by decide, by decide⟩,
    C1_grid2vector_flatten exC1 (by decide) (by decide) (by decide)
      1 0 1 (by decide) (by decide) (by decide)⟩

/-- C9: the output arrays of `grid2vector` and of `vector2grid` have length
`N_[0]*N_[1]*N_[2]` — the buffer is sized from the stored global counts, for
EVERY state, regardless of the lengths of the current `x`, `y`, `z` (the
witness exercises mismatched lengths); the flatten is content-faithful only
when the lengths agree with the counts (claim C1). -/
theorem C9_lengths_from_counts (s : GridState)
    (h : 0 ≤ s.N_.c0 * s.N_.c1 * s.N_.c2) :
    ∃ s', grid2vector s = .ok s' ∧ vector2grid s = .ok s' ∧
      s'.x.length = (s.N_.c0 * s.N_.c1 * s.N_.c2).toNat ∧
      s'.y.length = (s.N_.c0 * s.N_.c1 * s.N_.c2).toNat ∧
      s'.z.length = (s.N_.c0 * s.N_.c1 * s.N_.c2).toNat := by
  refine ⟨_, grid2vector_ok s (not_lt.mpr h), ?_, ?_, ?_, ?_⟩
  · exact grid2vector_ok s (not_lt.mpr h)
  · exact padTrunc_length _ _
  · exact padTrunc_length _ _
  · exact padTrunc_length _ _

/-- C9 witness: the concrete state `exC9` whose array lengths (3, 1, 1)
disagree with `N_ = (2, 2, 1)`; the outputs still have length
`toNat (2*2*1) = 4`. -/
theorem C9_witness :
    (0 ≤ exC9.N_.c0 * exC9.N_.c1 * exC9.N_.c2) ∧
    (∃ s', grid2vector exC9 = .ok s' ∧ vector2grid exC9 = .ok s' ∧
      s'.x.length = (exC9.N_.c0 * exC9.N_.c1 * exC9.N_.c2).toNat ∧
      s'.y.length = (exC9.N_.c0 * exC9.N_.c1 * exC9.N_.c2).toNat ∧
      s'.z.length = (exC9.N_.c0 * exC9.N_.c1 * exC9.N_.c2).toNat) :=
  ⟨by decide, C9_lengths_from_counts exC9 (by decide)⟩

/-- C5 (code-bug evaluation): `random_grid` called with `scale = 2` ignores
its `scale` parameter — the call site hardcodes `scale=0.5` — so with the
probe oracle (which echoes the width it was given) every draw comes back
`1/2`, not the requested `2`; the claim (and the function's own docstring,
"scale : float — Width of normal distribution") requires the standard
deviation to equal the `scale` argument. -/
theorem C5_scale_ignored :
    (random_grid normalProbe exC5geo 1 2 exC5).x = [1 / 2] ∧ (1 / 2 : ℚ) ≠ 2 :=
  ⟨rfl, by norm_num⟩

/-- `Python min()` succeeds on any nonempty list. -/
theorem pyMin_ok_of_ne_nil (l : List ℚ) (h : l ≠ []) :
    ∃ q, pyMin l = .ok q := by
  cases l with
  | nil => exact absurd rfl h
  | cons a r => exact ⟨_, rfl⟩

/-- `Python max()` succeeds on any nonempty list. -/
theorem pyMax_ok_of_ne_nil (l : List ℚ) (h : l ≠ []) :
    ∃ q, pyMax l = .ok q := by
  cases l with
  | nil => exact absurd rfl h
  | cons a r => exact ⟨_, rfl⟩

/-- `find?` for `a ≤ ·` comes up empty iff every element is `< a`. -/
theorem find?_le_eq_none (a : ℚ) (g : List ℚ) :
    g.find? (fun v => decide (a ≤ v)) = none ↔ ∀ v ∈ g, v < a := by
  rw [List.find?_eq_none]
  simp [not_le]

/-- C8: `center_grid` fails (with Python's `IndexError`, the spec's
`PreconditionError`) if and only if on some axis no existing coordinate is
`≥` the anchor's coordinate on that axis; when every axis has such a
coordinate, no error is raised. -/
theorem C8_center_grid_error_iff (ac : Triple ℚ) (s : GridState) :
    exOk (center_grid ac s) = false ↔
      ∃ i : Fin 3, ∀ v ∈ coordsOf s i, v < ac.get i := by
  simp only [center_grid, shiftAxis]
  cases hfx : s.x.find? (fun v => decide (ac.c0 ≤ v)) with
  | none =>
    exact iff_of_true rfl ⟨0, (find?_le_eq_none ac.c0 s.x).mp hfx⟩
  | some w0 =>
    cases hfy : s.y.find? (fun v => decide (ac.c1 ≤ v)) with
    | none =>
      exact iff_of_true rfl ⟨1, (find?_le_eq_none ac.c1 s.y).mp hfy⟩
    | some w1 =>
      cases hfz : s.z.find? (fun v => decide (ac.c2 ≤ v)) with
      | none =>
        exact iff_of_true rfl ⟨2, (find?_le_eq_none ac.c2 s.z).mp hfz⟩
      | some w2 =>
        have hnot : ¬∃ i : Fin 3, ∀ v ∈ coordsOf s i, v < ac.get i := by
          rintro ⟨i, hall⟩
          fin_cases i
          · exact absurd (hall w0 (List.mem_of_find?_eq_some hfx))
              (not_lt.mpr (by simpa using List.find?_some hfx))
          · exact absurd (hall w1 (List.mem_of_find?_eq_some hfy))
              (not_lt.mpr (by simpa using List.find?_some hfy))
          · exact absurd (hall w2 (List.mem_of_find?_eq_some hfz))
              (not_lt.mpr (by simpa using List.find?_some hfz))
        rcases hsx : s.x with _ | ⟨a0, t0⟩
        · rw [hsx] at hfx; simp at hfx
        rcases hsy : s.y with _ | ⟨a1, t1⟩
        · rw [hsy] at hfy; simp at hfy
        rcases hsz : s.z with _ | ⟨a2, t2⟩
        · rw [hsz] at hfz; simp at hfz
        simp only [List.map_cons, pyMin, pyMax]
        exact iff_of_false (by simp [exOk]) hnot

/-- C10: whenever `center_grid` succeeds, the number of points per axis is
unchanged (the shift is a `map` over each axis), and the stored counts `N_`
are set to exactly those lengths. -/
theorem C10_center_grid_preserves_counts (ac : Triple ℚ) (s s' : GridState)
    (h : center_grid ac s = .ok s') :
    s'.x.length = s.x.length ∧ s'.y.length = s.y.length ∧
      s'.z.length = s.z.length ∧
      s'.N_ = ⟨(s'.x.length : ℤ), (s'.y.length : ℤ), (s'.z.length : ℤ)⟩ := by
  simp only [center_grid, shiftAxis] at h
  cases hfx : s.x.find? (fun v => decide (ac.c0 ≤ v)) <;> rw [hfx] at h
  case none => exact absurd h (by simp)
  case some w0 =>
  cases hfy : s.y.find? (fun v => decide (ac.c1 ≤ v)) <;> rw [hfy] at h
  case none => exact absurd h (by simp)
  case some w1 =>
  cases hfz : s.z.find? (fun v => decide (ac.c2 ≤ v)) <;> rw [hfz] at h
  case none => exact absurd h (by simp)
  case some w2 =>
  rcases hsx : s.x with _ | ⟨a0, t0⟩
  · rw [hsx] at hfx; simp at hfx
  rcases hsy : s.y with _ | ⟨a1, t1⟩
  · rw [hsy] at hfy; simp at hfy
  rcases hsz : s.z with _ | ⟨a2, t2⟩
  · rw [hsz] at hfz; simp at hfz
  rw [hsx, hsy, hsz] at h
  simp only [List.map_cons, pyMin, pyMax, Except.ok.injEq] at h
  subst h
  refine ⟨?_, ?_, ?_, rfl⟩ <;> simp [hsx, hsy, hsz]

/-- C10 witness: centering the one-point-per-axis grid `exC10` to the origin
succeeds and preserves all three axis lengths. -/
theorem C10_witness :
    (center_grid exC10ac exC10 = .ok exC10res) ∧
    (exC10res.x.length = exC10.x.length ∧ exC10res.y.length = exC10.y.length ∧
      exC10res.z.length = exC10.z.length ∧
      exC10res.N_ = ⟨(exC10res.x.length : ℤ), (exC10res.y.length : ℤ),
                     (exC10res.z.length : ℤ)⟩) :=
  ⟨by norm_num [center_grid, shiftAxis, pyMin, pyMax, npRound, exC10, exC10ac,
      exC10res, List.find?],
    C10_center_grid_preserves_counts exC10ac exC10 exC10res
      (by norm_num [center_grid, shiftAxis, pyMin, pyMax, npRound, exC10,
        exC10ac, exC10res, List.find?])⟩

/-- Bind of a raised exception short-circuits. -/
theorem exc_bind_error {α β : Type} (e : Err) (f : α → Except Err β) :
    (Except.error e >>= f) = Except.error e := rfl

/-- Bind of a successful value applies the continuation. -/
theorem exc_bind_ok {α β : Type} (a : α) (f : α → Except Err β) :
    (Except.ok a >>= f) = f a := rfl

/-- A skipped line leaves the loop state alone. -/
theorem readLine_skip (comment : String) (st : LoopSt) (cl : List String)
    (h : skipLine comment cl = true) : readLine comment st cl = .ok st := by
  simp [readLine, h]

/-- Once the loop has committed to vector format (`is_vector == True`), any
later counted line that does not have exactly 3 tokens makes `check` raise
the inconsistency `IOError`. -/
theorem foldlM_vec_err (comment : String) :
    ∀ (L : List (List String)) (st : LoopSt), st.isVec = some true →
      (∃ l ∈ L, skipLine comment l = false ∧ l.length ≠ 3) →
      L.foldlM (readLine comment) st = .error .ioError := by
  intro L
  induction L with
  | nil =>
    rintro st - ⟨l, hl, -⟩
    exact absurd hl (by simp)
  | cons a t ih =>
    rintro st hv ⟨l, hl, hcnt, hlen⟩
    rw [List.foldlM_cons]
    by_cases hsk : skipLine comment a = true
    · rw [readLine_skip comment st a hsk, exc_bind_ok]
      refine ih st hv ⟨l, ?_, hcnt, hlen⟩
      rcases List.mem_cons.mp hl with rfl | h
      · exact absurd hsk (by simp [hcnt])
      · exact h
    · have hsk' : skipLine comment a = false := by simpa using hsk
      by_cases ha3 : a.length = 3
      · have hstep : readLine comment st a =
            .ok ⟨some true, (a.enum.foldl vecStep (st.grid, st.index)).1,
                 (a.enum.foldl vecStep (st.grid, st.index)).2⟩ := by
          simp [readLine, hsk', check, ha3, hv]
        rw [hstep, exc_bind_ok]
        refine ih _ rfl ⟨l, ?_, hcnt, hlen⟩
        rcases List.mem_cons.mp hl with rfl | h
        · exact absurd ha3 hlen
        · exact h
      · have hstep : readLine comment st a = .error .ioError := by
          simp [readLine, hsk', check, ha3, hv]
        rw [hstep, exc_bind_error]

/-- Once the loop has committed to regular format (`is_vector == False`),
any later counted line that does not have exactly 4 tokens makes `check`
raise the inconsistency `IOError`. -/
theorem foldlM_reg_err (comment : String) :
    ∀ (L : List (List String)) (st : LoopSt), st.isVec = some false →
      (∃ l ∈ L, skipLine comment l = false ∧ l.length ≠ 4) →
      L.foldlM (readLine comment) st = .error .ioError := by
  intro L
  induction L with
  | nil =>
    rintro st - ⟨l, hl, -⟩
    exact absurd hl (by simp)
  | cons a t ih =>
    rintro st hv ⟨l, hl, hcnt, hlen⟩
    rw [List.foldlM_cons]
    by_cases hsk : skipLine comment a = true
    · rw [readLine_skip comment st a hsk, exc_bind_ok]
      refine ih st hv ⟨l, ?_, hcnt, hlen⟩
      rcases List.mem_cons.mp hl with rfl | h
      · exact absurd hsk (by simp [hcnt])
      · exact h
    · have hsk' : skipLine comment a = false := by simpa using hsk
      by_cases ha4 : a.length = 4
      · have hstep : readLine comment st a =
            .ok ⟨some false,
                 st.grid.set (pyIdx3 (dimFind (pyLower (a.headD "")))) a.tail,
                 st.index⟩ := by
          simp [readLine, hsk', check, ha4, hv]
        rw [hstep, exc_bind_ok]
        refine ih _ rfl ⟨l, ?_, hcnt, hlen⟩
        rcases List.mem_cons.mp hl with rfl | h
        · exact absurd ha4 hlen
        · exact h
      · have hstep : readLine comment st a = .error .ioError := by
          simp [readLine, hsk', check, ha4, hv]
        rw [hstep, exc_bind_error]

/-- From the undetermined state (`is_vector == None`), a file containing
both a counted 3-token line and a counted 4-token line always drives the
loop into the inconsistency `IOError`. -/
theorem foldlM_mixed_err (comment : String) :
    ∀ (L : List (List String)) (st : LoopSt), st.isVec = none →
      (∃ l ∈ L, skipLine comment l = false ∧ l.length = 3) →
      (∃ l ∈ L, skipLine comment l = false ∧ l.length = 4) →
      L.foldlM (readLine comment) st = .error .ioError := by
  intro L
  induction L with
  | nil =>
    rintro st - ⟨l, hl, -⟩
    exact absurd hl (by simp)
  | cons a t ih =>
    rintro st hv ⟨l3, hl3, hc3, hlen3⟩ ⟨l4, hl4, hc4, hlen4⟩
    rw [List.foldlM_cons]
    by_cases hsk : skipLine comment a = true
    · rw [readLine_skip comment st a hsk, exc_bind_ok]
      refine ih st hv ⟨l3, ?_, hc3, hlen3⟩ ⟨l4, ?_, hc4, hlen4⟩
      · rcases List.mem_cons.mp hl3 with rfl | h
        · exact absurd hsk (by simp [hc3])
        · exact h
      · rcases List.mem_cons.mp hl4 with rfl | h
        · exact absurd hsk (by simp [hc4])
        · exact h
    · have hsk' : skipLine comment a = false := by simpa using hsk
      by_cases ha3 : a.length = 3
      · have hstep : readLine comment st a =
            .ok ⟨some true, (a.enum.foldl vecStep (st.grid, st.index)).1,
                 (a.enum.foldl vecStep (st.grid, st.index)).2⟩ := by
          simp [readLine, hsk', check, ha3, hv]
        rw [hstep, exc_bind_ok]
        refine foldlM_vec_err comment t _ rfl ⟨l4, ?_, hc4, by omega⟩
        rcases List.mem_cons.mp hl4 with rfl | h
        · exact absurd ha3 (by omega)
        · exact h
      · by_cases ha4 : a.length = 4
        · have hstep : readLine comment st a =
              .ok ⟨some false,
                   st.grid.set (pyIdx3 (dimFind (pyLower (a.headD "")))) a.tail,
                   st.index⟩ := by
            simp [readLine, hsk', check, ha3, ha4, hv]
          rw [hstep, exc_bind_ok]
          refine foldlM_reg_err comment t _ rfl ⟨l3, ?_, hc3, by omega⟩
          rcases List.mem_cons.mp hl3 with rfl | h
          · exact absurd hlen3 ha3
          · exact h
        · have hstep : readLine comment st a = .error .ioError := by
            simp [readLine, hsk', check, ha3, ha4, hv]
          rw [hstep, exc_bind_error]

/-- C6: a file in which, among the lines that are neither blank nor
comment-marked, one splits into 3 tokens and another into 4 tokens makes
`read` raise the "Inconsistency in Grid File" `IOError` (the spec's
`FormatError`), for every comment marker and every starting state. -/
theorem C6_read_mixed_raises (file : List (List String)) (comment : String)
    (s : GridState)
    (h3 : ∃ l ∈ file, skipLine comment l = false ∧ l.length = 3)
    (h4 : ∃ l ∈ file, skipLine comment l = false ∧ l.length = 4) :
    read file comment s = .error .ioError := by
  have hf := foldlM_mixed_err comment file initLoopSt rfl h3 h4
  simp [read, hf]

/-- C6 witness: the mixed file `exC6file` (a comment line, the 3-token
header `x y z`, then a 4-token line). -/
theorem C6_witness :
    ((∃ l ∈ exC6file, skipLine "#" l = false ∧ l.length = 3) ∧
     (∃ l ∈ exC6file, skipLine "#" l = false ∧ l.length = 4)) ∧
    read exC6file "#" exC6 = .error .ioError :=
  ⟨⟨⟨["x", "y", "z"], by decide, by decide, by decide⟩,
    ⟨["5", "-5", "0", "9"], by decide, by decide, by decide⟩⟩,
   C6_read_mixed_raises exC6file "#" exC6
     ⟨["x", "y", "z"], by decide, by decide, by decide⟩
     ⟨["5", "-5", "0", "9"], by decide, by decide, by decide⟩⟩

/-- On a file whose counted lines all have 4 tokens, the line loop never
raises: starting from an undetermined or regular state it ends in regular
state (`some false` as soon as any line counted), with the accumulator rows
given by folding the per-line assignment and `index` untouched. -/
theorem foldlM_reg_ok (comment : String) :
    ∀ (L : List (List String)) (st : LoopSt),
      (st.isVec = none ∨ st.isVec = some false) →
      (∀ l ∈ L, skipLine comment l = false → l.length = 4) →
      L.foldlM (readLine comment) st =
        .ok ⟨if L.any (fun l => !skipLine comment l) then some false else st.isVec,
             L.foldl (regStep comment) st.grid, st.index⟩ := by
  intro L
  induction L with
  | nil => intro st _ _; rfl
  | cons a t ih =>
    intro st hv h4
    rw [List.foldlM_cons]
    by_cases hsk : skipLine comment a = true
    · rw [readLine_skip comment st a hsk, exc_bind_ok,
        ih st hv (fun l hl => h4 l (by simp [hl]))]
      simp [hsk, regStep]
    · have hsk' : skipLine comment a = false := by simpa using hsk
      have ha4 : a.length = 4 := h4 a (by simp) hsk'
      have hstep : readLine comment st a =
          .ok ⟨some false,
               st.grid.set (pyIdx3 (dimFind (pyLower (a.headD "")))) a.tail,
               st.index⟩ := by
        rcases hv with hv | hv <;>
          simp [readLine, hsk', check, ha4, hv, (by omega : ¬a.length = 3)]
      rw [hstep, exc_bind_ok,
        ih _ (Or.inr rfl) (fun l hl => h4 l (by simp [hl]))]
      simp [regStep, hsk', ite_self]

/-- C7: reading a well-formed regular-format file (every counted line has 4
tokens, each axis row present and numeric) writes only `bounds_min`
(`min_`), `bounds_max` (`max_`) and the counts `N_` from the file; the
coordinate arrays `x`, `y`, `z`, the spacings, `d3r` and `is_initialized`
are left exactly as they were (so the flag stays `false` on the
uninitialized states the claim quantifies over, and the caller must still
run `grid_init`); the reported format is `False` (regular). -/
theorem C7_read_regular_frame (file : List (List String)) (comment : String)
    (s : GridState) (a0 b0 c0 a1 b1 c1 a2 b2 c2 : ℚ)
    (hne : ∃ l ∈ file, skipLine comment l = false)
    (h4 : ∀ l ∈ file, skipLine comment l = false → l.length = 4)
    (h0 : convRow (regRows comment file).c0 = .ok [a0, b0, c0])
    (h1 : convRow (regRows comment file).c1 = .ok [a1, b1, c1])
    (h2 : convRow (regRows comment file).c2 = .ok [a2, b2, c2]) :
    read file comment s = .ok (some false, { s with
      min_ := ⟨a0, a1, a2⟩
      max_ := ⟨b0, b1, b2⟩
      N_ := ⟨truncQ c0, truncQ c1, truncQ c2⟩ }) := by
  have hany : file.any (fun l => !skipLine comment l) = true := by
    obtain ⟨l, hl, hc⟩ := hne
    exact List.any_eq_true.mpr ⟨l, hl, by simp [hc]⟩
  have hfold := foldlM_reg_ok comment file initLoopSt (Or.inl rfl) h4
  rw [hany] at hfold
  rw [if_pos rfl] at hfold
  have hrows : List.foldl (regStep comment) initLoopSt.grid file =
      regRows comment file := rfl
  rw [hrows] at hfold
  simp [read, hfold, h0, h1, h2]

/-- C7 witness: the concrete regular file `exC7file`
(`x -5 5 11 / y -2 2 5 / z 0 0 1` behind a comment line) against the base
state `exC7`. -/
theorem C7_witness :
    ((∃ l ∈ exC7file, skipLine "#" l = false) ∧
     (∀ l ∈ exC7file, skipLine "#" l = false → l.length = 4) ∧
     convRow (regRows "#" exC7file).c0 = .ok [-5, 5, 11] ∧
     convRow (regRows "#" exC7file).c1 = .ok [-2, 2, 5] ∧
     convRow (regRows "#" exC7file).c2 = .ok [0, 0, 1]) ∧
    read exC7file "#" exC7 = .ok (some false, { exC7 with
      min_ := ⟨-5, -2, 0⟩
      max_ := ⟨5, 2, 0⟩
      N_ := ⟨truncQ 11, truncQ 5, truncQ 1⟩ }) :=
  ⟨⟨⟨["x", "-5", "5", "11"], by decide, by decide⟩, by decide,
    by decide, by decide, by decide⟩,
   C7_read_regular_frame exC7file "#" exC7 (-5) 5 11 (-2) 2 5 0 0 1
     ⟨["x", "-5", "5", "11"], by decide, by decide⟩ (by decide)
     (by decide) (by decide) (by decide)⟩

end Orbkit
